import Mathlib

/-!
Verification of the ImageFinder application (`src/app.py`).

The program is a thin orchestration layer over external services.  We give a
shallow embedding of its data model and operations:

* the vector database (Qdrant) is modelled as a `DBState` holding the list of
  collections and the list of stored points; `count`, `upsert`, `search`,
  `collection_exists` and `create_collection` model the client calls used by
  the program;
* the embedding service is an oracle `api : String → Nat → List Int`
  (text and requested dimensionality to vector); the captioning service is an
  oracle `cap : String → String` (data URL to description); the base64
  encoder is an oracle `b64 : List Nat → String`;
* the filesystem is a map `FS := String → Option (List Nat)` from filename to
  byte content;
* the nearest-neighbour ranking of the vector store is parametrised by an
  abstract similarity score `score : List Int → List Int → Int`; `search`
  returns the stored points sorted by descending score against the query
  vector, truncated to `limit`;
* the fallible indexing step of the Streamlit `add_tab` (the block guarded by
  the `button_clicked` flag) is `store_run`, which also emits a trace of
  `Event`s recording the order of the externally visible operations.
-/

namespace ImageFinder

/-- `EMBEDDING_MODEL` constant of app.py. -/
def EMBEDDING_MODEL : String := "text-embedding-3-large"

/-- `EMBEDDING_DIM` constant of app.py. -/
def EMBEDDING_DIM : Nat := 3072

/-- `QDRANT_COLLECTION_NAME` constant of app.py. -/
def QDRANT_COLLECTION_NAME : String := "image_descriptions"

/-- Accepted upload extensions of the `st.file_uploader` call in `add_tab`
(`type=['jpg', 'jpeg', 'png']`). -/
def uploader_accepted_types : List String := ["jpg", "jpeg", "png"]

/-- Distance metric of a Qdrant collection (`qdrant_client.models.Distance`). -/
inductive Distance where
  | cosine
  | euclid
  | dot
deriving DecidableEq, Repr

/-- Vector configuration of a Qdrant collection
(`qdrant_client.models.VectorParams`). -/
structure VectorParams where
  size : Nat
  distance : Distance
deriving DecidableEq, Repr

/-- Payload attached to a stored point: app.py always stores
`{'file_name': file_name}`. -/
structure Payload where
  file_name : String
deriving DecidableEq, Repr

/-- A stored vector record (`qdrant_client.models.PointStruct`).  Vector
entries are abstracted to integers; the program never inspects them. -/
structure PointStruct where
  id : Nat
  vector : List Int
  payload : Payload
deriving DecidableEq, Repr

/-- State of the Qdrant server: the named collections with their vector
configuration, and the points of the single collection the program uses. -/
structure DBState where
  collections : List (String × VectorParams)
  points : List PointStruct
deriving DecidableEq, Repr

/-- `qdrant_client.collection_exists(name)`. -/
def collection_exists (s : DBState) (name : String) : Bool :=
  s.collections.any fun e => e.1 == name

/-- `qdrant_client.create_collection(collection_name, vectors_config)`. -/
def create_collection (s : DBState) (name : String) (cfg : VectorParams) : DBState :=
  { s with collections := s.collections ++ [(name, cfg)] }

/-- `qdrant_client.count(collection_name, exact=True).count`: the exact number
of stored points. -/
def count (s : DBState) : Nat :=
  s.points.length

/-- `qdrant_client.upsert`: insert the point, or replace the stored point that
already carries the same id. -/
def upsert (p : PointStruct) (s : DBState) : DBState :=
  if s.points.any (fun q => q.id == p.id) then
    { s with points := s.points.map fun q => if q.id == p.id then p else q }
  else
    { s with points := s.points ++ [p] }

/-- One step of ranking: insert a point into an already ranked list, keeping
the list sorted by descending score against the query vector. -/
def rank_insert (score : List Int → List Int → Int) (qv : List Int)
    (p : PointStruct) : List PointStruct → List PointStruct
  | [] => [p]
  | q :: rest =>
      if score qv q.vector ≤ score qv p.vector then p :: q :: rest
      else q :: rank_insert score qv p rest

/-- Rank the stored points by descending similarity score against the query
vector (insertion sort; the concrete cosine score of the server is abstracted
into the `score` oracle). -/
def rank_points (score : List Int → List Int → Int) (qv : List Int) :
    List PointStruct → List PointStruct
  | [] => []
  | p :: rest => rank_insert score qv p (rank_points score qv rest)

/-- `qdrant_client.search(collection_name, query_vector, limit)`: the `limit`
best-scoring stored points, best first. -/
def search (score : List Int → List Int → Int) (query_vector : List Int)
    (limit : Nat) (s : DBState) : List PointStruct :=
  (rank_points score query_vector s.points).take limit

/-- `assure_db_collection_exists` of app.py.  Besides the new server state we
return whether a creation happened (the source reports this through its two
print statements). -/
def assure_db_collection_exists (s : DBState) : DBState × Bool :=
  if collection_exists s QDRANT_COLLECTION_NAME then
    (s, false)
  else
    (create_collection s QDRANT_COLLECTION_NAME ⟨EMBEDDING_DIM, Distance.cosine⟩, true)

/-- `get_embedding` of app.py: call the embedding service on the text with
`dimensions=EMBEDDING_DIM` and return the resulting vector. -/
def get_embedding (api : String → Nat → List Int) (text : String) : List Int :=
  api text EMBEDDING_DIM

/-- `add_description_to_db` of app.py: read the exact count, add one to obtain
`first_available_id`, then upsert the point carrying that id, the embedding of
the description, and the payload `{'file_name': file_name}`.  In the source
the count is read by the first statement; `get_embedding` is evaluated
afterwards, while the arguments of the `upsert` call are built. -/
def add_description_to_db (api : String → Nat → List Int)
    (description file_name : String) (s : DBState) : DBState :=
  let first_available_id := count s + 1
  upsert ⟨first_available_id, get_embedding api description, ⟨file_name⟩⟩ s

/-- `search_descriptions_in_db` of app.py: embed the query, search with
`limit=1`, and take `[0].payload['file_name']` of the result list.  The `[0]`
subscript of the source raises `IndexError` on an empty result list; here the
faulting dereference is `none`. -/
def search_descriptions_in_db (api : String → Nat → List Int)
    (score : List Int → List Int → Int) (user_search : String) (s : DBState) :
    Option String :=
  (search score (get_embedding api user_search) 1 s).head?.map
    fun p => p.payload.file_name

/-- The filesystem under `IMAGES_PATH`: filename to stored byte content. -/
def FS : Type := String → Option (List Nat)

/-- Reading a file (`open(path, "rb")` followed by `read()`); `none` when the
file does not exist. -/
def read_file (fs : FS) (name : String) : Option (List Nat) :=
  fs name

/-- `file_path.exists()` of `add_tab`. -/
def exists_file (fs : FS) (name : String) : Bool :=
  (fs name).isSome

/-- `save_image` of app.py: open the path in mode `'wb'` and write the
uploaded bytes, truncating whatever was stored there before. -/
def save_image (fs : FS) (file_path : String) (uploaded_file : List Nat) : FS :=
  fun n => if n = file_path then some uploaded_file else fs n

/-- `prepare_image_for_open_ai` of app.py: read the file at the path, base64
encode the bytes, and prepend the fixed `data:image/png;base64,` header
(the header names `image/png` whatever format the bytes are in). -/
def prepare_image_for_open_ai (b64 : List Nat → String) (fs : FS)
    (image_path : String) : Option String :=
  (read_file fs image_path).map fun image_data =>
    "data:image/png;base64," ++ b64 image_data

/-- `describe_image` of app.py: send the data URL of the image to the
captioning service and return the description it produces. -/
def describe_image (cap : String → String) (b64 : List Nat → String) (fs : FS)
    (image_path : String) : Option String :=
  (prepare_image_for_open_ai b64 fs image_path).map cap

/-- Session state of the front end that the store tab manipulates: the
filesystem, the vector store, and the `button_clicked` busy guard. -/
structure World where
  fs : FS
  db : DBState
  busy : Bool

/-- Outcome of one pass through the guarded store block of `add_tab`:
`conflict` is the `st.error` branch, `saved` the `st.success` branch, and
`fault` an unhandled failure while reading back the saved file. -/
inductive StoreOutcome where
  | conflict
  | saved
  | fault
deriving DecidableEq, Repr

/-- Externally visible operations of the indexing workflow, recorded in the
order the source performs them. -/
inductive Event where
  | checkExists : String → Bool → Event
  | saveImage : String → Event
  | caption : String → Event
  | readCount : Nat → Event
  | embedText : String → Nat → Event
  | upsertPoint : Nat → Event
deriving DecidableEq, Repr

/-- Recognises the embedding event of a trace. -/
def isEmbedEvent : Event → Bool
  | Event.embedText _ _ => true
  | _ => false

/-- Recognises the count-read event of a trace. -/
def isReadCountEvent : Event → Bool
  | Event.readCount _ => true
  | _ => false

/-- Recognises the file-save event of a trace. -/
def isSaveEvent : Event → Bool
  | Event.saveImage _ => true
  | _ => false

/-- `st.session_state['button_clicked'] = True` executed when the submit
button of the store tab fires. -/
def click_submit (w : World) : World :=
  { w with busy := true }

/-- The block of `add_tab` guarded by `button_clicked`: check whether the
target filename exists (conflict, reset the guard, touch nothing), otherwise
save the image, caption the saved file, and store the description; the guard
is reset after the success message.  The third component is the trace of the
operations performed, in source order: the count of the collection is read
first and the embedding of the description is obtained afterwards, while the
arguments of the upsert are built. -/
def store_run (api : String → Nat → List Int) (cap : String → String)
    (b64 : List Nat → String) (name : String) (bytes : List Nat) (w : World) :
    World × StoreOutcome × List Event :=
  if exists_file w.fs name then
    ({ w with busy := false }, StoreOutcome.conflict, [Event.checkExists name true])
  else
    let fs1 := save_image w.fs name bytes
    match describe_image cap b64 fs1 name with
    | none =>
        ({ w with fs := fs1 }, StoreOutcome.fault,
          [Event.checkExists name false, Event.saveImage name, Event.caption name])
    | some d =>
        ({ fs := fs1, db := add_description_to_db api d name w.db, busy := false },
          StoreOutcome.saved,
          [Event.checkExists name false, Event.saveImage name, Event.caption name,
            Event.readCount (count w.db), Event.embedText d EMBEDDING_DIM,
            Event.upsertPoint (count w.db + 1)])

/-- Sequential indexing of a list of (description, file name) pairs through
`add_description_to_db`, in order. -/
def store_all (api : String → Nat → List Int) :
    List (String × String) → DBState → DBState
  | [], s => s
  | (d, f) :: rest, s => store_all api rest (add_description_to_db api d f s)

/-- Concrete embedding oracle used by witnesses. -/
def capi : String → Nat → List Int := fun _ _ => [1]

/-- Concrete captioning oracle used by witnesses. -/
def ccap : String → String := fun _ => "czerwony rower"

/-- Concrete base64 oracle used by witnesses. -/
def cb64 : List Nat → String := fun _ => "AAAA"

/-- Concrete similarity score used by witnesses. -/
def cscore : List Int → List Int → Int := fun _ _ => 0

/-- Empty filesystem. -/
def fs_empty : FS := fun _ => none

/-- Filesystem already holding a file `a.png` with content `[1]`. -/
def fs_apng : FS := fun n => if n = "a.png" then some [1] else none

/-- Empty vector store. -/
def db_empty : DBState := { collections := [], points := [] }

/-- Vector store holding one point. -/
def db_one : DBState :=
  { collections := [], points := [⟨1, [1], ⟨"a.png"⟩⟩] }

/-- Session about to run the store block on an empty filesystem. -/
def w_empty : World := { fs := fs_empty, db := db_empty, busy := true }

/-- Session about to run the store block while `a.png` already exists. -/
def w_conflict : World := { fs := fs_apng, db := db_one, busy := true }

/-- Inserting into a ranked list grows its length by one. -/
theorem length_rank_insert (score : List Int → List Int → Int) (qv : List Int)
    (p : PointStruct) : ∀ l : List PointStruct,
    (rank_insert score qv p l).length = l.length + 1
  | [] => rfl
  | q :: rest => by
      unfold rank_insert
      split
      · rfl
      · simp [length_rank_insert score qv p rest]

/-- Ranking preserves the number of points. -/
theorem length_rank_points (score : List Int → List Int → Int) (qv : List Int) :
    ∀ l : List PointStruct, (rank_points score qv l).length = l.length
  | [] => rfl
  | p :: rest => by
      unfold rank_points
      rw [length_rank_insert, length_rank_points]
      rfl

/-- C1: every store operation upserts exactly the record whose id is the exact
record count at the read plus one, whose vector is the embedding of the
description, and whose payload carries the uploaded file name. -/
theorem add_description_upserts_count_plus_one
    (api : String → Nat → List Int) (description file_name : String) (s : DBState) :
    ∃ p : PointStruct,
      add_description_to_db api description file_name s = upsert p s ∧
      p.id = count s + 1 ∧
      p.vector = get_embedding api description ∧
      p.payload = ⟨file_name⟩ :=
  ⟨⟨count s + 1, get_embedding api description, ⟨file_name⟩⟩, rfl, rfl, rfl, rfl⟩

/-- C2: when the target filename already exists, the store block reports a
conflict and leaves both the filesystem (hence the existing file's content)
and the vector store untouched. -/
theorem store_conflict_no_mutation (api : String → Nat → List Int)
    (cap : String → String) (b64 : List Nat → String) (name : String)
    (bytes : List Nat) (w : World) (h : exists_file w.fs name = true) :
    (store_run api cap b64 name bytes w).2.1 = StoreOutcome.conflict ∧
    (store_run api cap b64 name bytes w).1.fs = w.fs ∧
    (store_run api cap b64 name bytes w).1.db = w.db := by
  simp [store_run, h]

/-- Witness for C2: a concrete session where `a.png` already exists. -/
theorem store_conflict_no_mutation_witness :
    (store_run capi ccap cb64 "a.png" [2] w_conflict).2.1 = StoreOutcome.conflict ∧
    (store_run capi ccap cb64 "a.png" [2] w_conflict).1.fs = w_conflict.fs ∧
    (store_run capi ccap cb64 "a.png" [2] w_conflict).1.db = w_conflict.db :=
  store_conflict_no_mutation capi ccap cb64 "a.png" [2] w_conflict (by decide)

/-- C9: the busy guard is set on a submit click, and the store block resets it
to idle on both of its handled outcomes, success and filename conflict. -/
theorem busy_guard_transitions (api : String → Nat → List Int)
    (cap : String → String) (b64 : List Nat → String) (name : String)
    (bytes : List Nat) (w : World) :
    (click_submit w).busy = true ∧
    ((store_run api cap b64 name bytes w).2.1 = StoreOutcome.conflict →
      (store_run api cap b64 name bytes w).1.busy = false) ∧
    ((store_run api cap b64 name bytes w).2.1 = StoreOutcome.saved →
      (store_run api cap b64 name bytes w).1.busy = false) := by
  refine ⟨rfl, ?_, ?_⟩ <;>
  · by_cases hc : exists_file w.fs name = true
    · simp [store_run, hc]
    · rcases hd : describe_image cap b64 (save_image w.fs name bytes) name with _ | d <;>
        simp [store_run, hc, hd]

/-- Witness for C9: a concrete successful store resets the guard. -/
theorem busy_guard_transitions_witness :
    (click_submit w_empty).busy = true ∧
    (store_run capi ccap cb64 "a.png" [7] w_empty).1.busy = false :=
  ⟨(busy_guard_transitions capi ccap cb64 "a.png" [7] w_empty).1,
    (busy_guard_transitions capi ccap cb64 "a.png" [7] w_empty).2.2 (by decide)⟩

/-- C10: the inline transport encoding is always a base64 data URL declared as
`image/png`, whatever the bytes, while the uploader also accepts `jpg` and
`jpeg` files. -/
theorem data_url_always_png (b64 : List Nat → String) (fs : FS)
    (image_path url : String)
    (h : prepare_image_for_open_ai b64 fs image_path = some url) :
    (∃ rest, url = "data:image/png;base64," ++ rest) ∧
    "jpg" ∈ uploader_accepted_types ∧ "jpeg" ∈ uploader_accepted_types ∧
    "png" ∈ uploader_accepted_types := by
  unfold prepare_image_for_open_ai at h
  rcases hr : read_file fs image_path with _ | bytes <;> rw [hr] at h <;> simp at h
  exact ⟨⟨b64 bytes, h.symm⟩, by decide, by decide, by decide⟩

/-- Witness for C10: the data URL of a concrete stored file. -/
theorem data_url_always_png_witness :
    (∃ rest, "data:image/png;base64,AAAA" = "data:image/png;base64," ++ rest) ∧
    "jpg" ∈ uploader_accepted_types ∧ "jpeg" ∈ uploader_accepted_types ∧
    "png" ∈ uploader_accepted_types :=
  data_url_always_png cb64 fs_apng "a.png" "data:image/png;base64,AAAA" (by decide)

/-- C3: searching an empty collection yields no result, and the `[0]`
dereference of `search_descriptions_in_db` faults (produces no value) instead
of returning an explicit no-match answer. -/
theorem search_empty_collection_faults (api : String → Nat → List Int)
    (score : List Int → List Int → Int) (q : String) (s : DBState)
    (h : s.points = []) :
    search score (get_embedding api q) 1 s = [] ∧
    search_descriptions_in_db api score q s = none := by
  have hr : rank_points score (get_embedding api q) s.points = [] := by
    rw [h]
    rfl
  refine ⟨?_, ?_⟩ <;> simp [search_descriptions_in_db, search, hr]

/-- Witness for C3: the concrete empty vector store. -/
theorem search_empty_collection_faults_witness :
    search cscore (get_embedding capi "kot") 1 db_empty = [] ∧
    search_descriptions_in_db capi cscore "kot" db_empty = none :=
  search_empty_collection_faults capi cscore "kot" db_empty rfl

/-- C5: on a non-empty collection, the retrieval operation embeds the query at
the fixed dimensionality `EMBEDDING_DIM`, searches with `limit` 1, and returns
the `file_name` of the single top result's payload. -/
theorem search_returns_top_file_name (api : String → Nat → List Int)
    (score : List Int → List Int → Int) (q : String) (s : DBState)
    (h : s.points ≠ []) :
    ∃ top : PointStruct,
      search score (get_embedding api q) 1 s = [top] ∧
      search_descriptions_in_db api score q s = some top.payload.file_name ∧
      get_embedding api q = api q EMBEDDING_DIM := by
  rcases hr : rank_points score (get_embedding api q) s.points with _ | ⟨top, rest⟩
  · exfalso
    apply h
    have hl := length_rank_points score (get_embedding api q) s.points
    rw [hr] at hl
    exact List.length_eq_zero.mp hl.symm
  · exact ⟨top, by simp [search, hr],
      by simp [search_descriptions_in_db, search, hr], rfl⟩

/-- Witness for C5: a concrete one-point collection. -/
theorem search_returns_top_file_name_witness :
    ∃ top : PointStruct,
      search cscore (get_embedding capi "rower") 1 db_one = [top] ∧
      search_descriptions_in_db capi cscore "rower" db_one =
        some top.payload.file_name ∧
      get_embedding capi "rower" = capi "rower" EMBEDDING_DIM :=
  search_returns_top_file_name capi cscore "rower" db_one (by decide)

/-- Counterexample to C4 as stated: in a concrete successful store run the
embedding event comes after the count-read event, not before it. -/
theorem embed_before_count_read_cex :
    ¬ ((store_run capi ccap cb64 "a.png" [7] w_empty).2.2.findIdx isEmbedEvent <
       (store_run capi ccap cb64 "a.png" [7] w_empty).2.2.findIdx isReadCountEvent) := by
  decide

/-- C4 (amended): the store block performs, in order, the existence check,
the file write, the captioning call, the count read, the embedding call (at
the fixed dimensionality), and the upsert — the count is read before the
embedding of the description is obtained. -/
theorem store_event_order (api : String → Nat → List Int) (cap : String → String)
    (b64 : List Nat → String) (name : String) (bytes : List Nat) (w : World)
    (h : exists_file w.fs name = false) :
    (store_run api cap b64 name bytes w).2.2 =
      [Event.checkExists name false, Event.saveImage name, Event.caption name,
        Event.readCount (count w.db),
        Event.embedText (cap ("data:image/png;base64," ++ b64 bytes)) EMBEDDING_DIM,
        Event.upsertPoint (count w.db + 1)] := by
  have hd : describe_image cap b64 (save_image w.fs name bytes) name =
      some (cap ("data:image/png;base64," ++ b64 bytes)) := by
    simp [describe_image, prepare_image_for_open_ai, read_file, save_image]
  simp [store_run, h, hd]

/-- Witness for the amended C4: the trace of a concrete successful run. -/
theorem store_event_order_witness :
    (store_run capi ccap cb64 "a.png" [7] w_empty).2.2 =
      [Event.checkExists "a.png" false, Event.saveImage "a.png",
        Event.caption "a.png", Event.readCount (count w_empty.db),
        Event.embedText (ccap ("data:image/png;base64," ++ cb64 [7])) EMBEDDING_DIM,
        Event.upsertPoint (count w_empty.db + 1)] :=
  store_event_order capi ccap cb64 "a.png" [7] w_empty rfl

/-- Counterexample to C6 as stated: `save_image` applied to an existing
filename does not reject the write — the old content `[1]` is not preserved. -/
theorem save_image_rejects_overwrite_cex :
    ¬ (read_file (save_image fs_apng "a.png" [2]) "a.png" = some [1]) := by
  decide

/-- C6 (amended): `save_image` itself writes unconditionally, overwriting any
existing content; the rejection of an overwrite is enforced by the store block
of the front end, which on an existing filename leaves the filesystem
untouched and never performs the save operation. -/
theorem save_image_unconditional_write (api : String → Nat → List Int)
    (cap : String → String) (b64 : List Nat → String) (fs : FS) (name : String)
    (bytes : List Nat) (w : World) :
    read_file (save_image fs name bytes) name = some bytes ∧
    (exists_file w.fs name = true →
      (store_run api cap b64 name bytes w).1.fs = w.fs ∧
      (store_run api cap b64 name bytes w).2.2.all (fun e => !isSaveEvent e) = true) := by
  refine ⟨?_, fun h => ?_⟩
  · simp [read_file, save_image]
  · simp [store_run, h, isSaveEvent]

/-- Witness for the amended C6: overwriting a concrete existing file, and the
store block refusing to save it. -/
theorem save_image_unconditional_write_witness :
    read_file (save_image fs_apng "a.png" [2]) "a.png" = some [2] ∧
    ((store_run capi ccap cb64 "a.png" [2] w_conflict).1.fs = w_conflict.fs ∧
      (store_run capi ccap cb64 "a.png" [2] w_conflict).2.2.all
        (fun e => !isSaveEvent e) = true) :=
  ⟨(save_image_unconditional_write capi ccap cb64 fs_apng "a.png" [2] w_conflict).1,
    (save_image_unconditional_write capi ccap cb64 fs_apng "a.png" [2] w_conflict).2
      (by decide)⟩

/-- Upserting a point whose id is not yet stored appends it. -/
theorem upsert_fresh (p : PointStruct) (s : DBState)
    (h : s.points.any (fun q => q.id == p.id) = false) :
    (upsert p s).points = s.points ++ [p] := by
  unfold upsert
  rw [if_neg (by simp [h])]

/-- One store step extends the id sequence `1, …, n` to `1, …, n + 1`. -/
theorem ids_after_add (api : String → Nat → List Int) (d f : String)
    (s : DBState) (n : Nat)
    (h : s.points.map (fun p => p.id) = List.range' 1 n) :
    (add_description_to_db api d f s).points.map (fun p => p.id) =
      List.range' 1 (n + 1) := by
  have hlen : count s = n := by
    have hh := congrArg List.length h
    simpa [count] using hh
  have hfresh : s.points.any (fun q => q.id == count s + 1) = false := by
    rw [List.any_eq_false]
    intro q hq
    have hmem : q.id ∈ List.range' 1 n := by
      rw [← h]
      exact List.mem_map_of_mem _ hq
    have hlt : q.id < 1 + n := (List.mem_range'_1.mp hmem).2
    simp only [beq_iff_eq, hlen]
    omega
  unfold add_description_to_db
  rw [upsert_fresh _ _ hfresh, List.map_append, h, List.range'_concat]
  simp [hlen, Nat.add_comm]

/-- Sequential stores extend the id sequence by the number of inputs. -/
theorem store_all_ids (api : String → Nat → List Int) :
    ∀ (inputs : List (String × String)) (s : DBState) (n : Nat),
    s.points.map (fun p => p.id) = List.range' 1 n →
    (store_all api inputs s).points.map (fun p => p.id) =
      List.range' 1 (n + inputs.length)
  | [], s, n, h => by simpa using h
  | (d, f) :: rest, s, n, h => by
      unfold store_all
      rw [store_all_ids api rest _ (n + 1) (ids_after_add api d f s n h)]
      congr 1
      simp
      omega

/-- C7: starting from an empty collection, N sequential stores assign exactly
the identifiers 1, …, N — pairwise distinct and strictly increasing. -/
theorem sequential_ids_strictly_increasing (api : String → Nat → List Int)
    (inputs : List (String × String)) (cs : List (String × VectorParams)) :
    (store_all api inputs ⟨cs, []⟩).points.map (fun p => p.id) =
      List.range' 1 inputs.length ∧
    ((store_all api inputs ⟨cs, []⟩).points.map (fun p => p.id)).Pairwise (· < ·) ∧
    ((store_all api inputs ⟨cs, []⟩).points.map (fun p => p.id)).Nodup := by
  have h0 : (⟨cs, []⟩ : DBState).points.map (fun p => p.id) = List.range' 1 0 := rfl
  have hids := store_all_ids api inputs ⟨cs, []⟩ 0 h0
  rw [Nat.zero_add] at hids
  refine ⟨hids, ?_, ?_⟩
  · rw [hids]
    exact List.pairwise_lt_range' 1 inputs.length
  · rw [hids]
    exact List.nodup_range' 1 inputs.length

/-- C8: when the collection is absent, the first ensure call creates it with
the fixed dimensionality and the cosine metric, and a second call neither
errors nor creates anything: exactly one collection of that name exists. -/
theorem assure_collection_idempotent (s : DBState)
    (h : collection_exists s QDRANT_COLLECTION_NAME = false) :
    (assure_db_collection_exists s).2 = true ∧
    (assure_db_collection_exists (assure_db_collection_exists s).1).2 = false ∧
    (assure_db_collection_exists (assure_db_collection_exists s).1).1 =
      (assure_db_collection_exists s).1 ∧
    (assure_db_collection_exists s).1.collections.countP
      (fun e => e.1 == QDRANT_COLLECTION_NAME) = 1 ∧
    (QDRANT_COLLECTION_NAME, (⟨EMBEDDING_DIM, Distance.cosine⟩ : VectorParams)) ∈
      (assure_db_collection_exists s).1.collections := by
  have h1 : assure_db_collection_exists s =
      (create_collection s QDRANT_COLLECTION_NAME
        ⟨EMBEDDING_DIM, Distance.cosine⟩, true) := by
    simp [assure_db_collection_exists, h]
  have hex : collection_exists
      (create_collection s QDRANT_COLLECTION_NAME ⟨EMBEDDING_DIM, Distance.cosine⟩)
      QDRANT_COLLECTION_NAME = true := by
    simp [collection_exists, create_collection]
  have hzero : s.collections.countP (fun e => e.1 == QDRANT_COLLECTION_NAME) = 0 := by
    rw [List.countP_eq_zero]
    intro a ha
    have hall := List.any_eq_false.mp h a ha
    simpa using hall
  rw [h1]
  refine ⟨rfl, ?_, ?_, ?_, ?_⟩
  · simp [assure_db_collection_exists, hex]
  · simp [assure_db_collection_exists, hex]
  · simp [create_collection, List.countP_append, hzero]
  · simp [create_collection]

/-- Witness for C8: ensuring the collection twice on the empty server. -/
theorem assure_collection_idempotent_witness :
    (assure_db_collection_exists db_empty).2 = true ∧
    (assure_db_collection_exists (assure_db_collection_exists db_empty).1).2 = false ∧
    (assure_db_collection_exists (assure_db_collection_exists db_empty).1).1 =
      (assure_db_collection_exists db_empty).1 ∧
    (assure_db_collection_exists db_empty).1.collections.countP
      (fun e => e.1 == QDRANT_COLLECTION_NAME) = 1 ∧
    (QDRANT_COLLECTION_NAME, (⟨EMBEDDING_DIM, Distance.cosine⟩ : VectorParams)) ∈
      (assure_db_collection_exists db_empty).1.collections :=
  assure_collection_idempotent db_empty rfl

end ImageFinder
